import Mathlib

/-!
# Verification of the delivery-SLA analysis engine

A shallow embedding, in Lean 4, of the data model and the operations of the
`operation-analytics` SLA pipeline (and of the run-level status summaries of
the orchestration script), together with theorems settling the spec's claims.

Timestamps are modelled as integers (ticks, one tick = one second), with one
day = 86400 ticks; `pandas` timestamp subtraction followed by `.dt.days`
floors the difference, which over a positive divisor is Lean's `Int` `/`
(Euclidean division).  Nullable values are `Option`, and money/coordinate
quantities are `ℚ`.
-/

namespace SLA

/-- Ticks per day: timestamps count seconds, one day = 86400 seconds. -/
def secPerDay : Int := 86400

/-- `pandas` `(t1 - t2).dt.days`: the floor of a timestamp difference in
whole days.  `Int` division by a positive constant is floor division. -/
def dtDays (d : Int) : Int := d / secPerDay

/-- BigQuery `DATE(t)`: the calendar-day index of a timestamp (days are
aligned at multiples of `secPerDay`, i.e. the epoch is a midnight). -/
def dateOf (t : Int) : Int := t / secPerDay

/-- BigQuery `DATE_DIFF(DATE(a), DATE(b), DAY)`: calendar-date difference. -/
def dateDiff (a b : Int) : Int := dateOf a - dateOf b

/-- `pandas` elementwise `>` comparison of two nullable timestamps: a
comparison involving a null (`NaT`) is `False`. -/
def optGT : Option Int → Option Int → Bool
  | some a, some b => a > b
  | _, _ => false

/-- Nullable timestamp subtraction followed by `.dt.days`: null operands
propagate to a null result. -/
def optSubDays : Option Int → Option Int → Option Int
  | some a, some b => some (dtDays (a - b))
  | _, _ => none

/-- Nullable `DATE_DIFF`: null operands propagate. -/
def optDateDiff : Option Int → Option Int → Option Int
  | some a, some b => some (dateDiff a b)
  | _, _ => none

/-- `data_extraction.py`, `get_mart_delivery_sla_query`, outer `SELECT`
(lines 122-128): the fixed-threshold performance categorisation
`CASE WHEN edd_delta_days <= -3 THEN 'very_early' WHEN <= 0 THEN 'on_time'
WHEN <= 7 THEN 'late' ELSE 'very_late' END`. -/
def perfCategory (d : Int) : String :=
  if d ≤ -3 then "very_early"
  else if d ≤ 0 then "on_time"
  else if d ≤ 7 then "late"
  else "very_late"

/-- `data_extraction.py`, `get_mart_delivery_sla_query` (lines 130-137): the
fixed-breakpoint price categorisation. -/
def priceBinFixed (p : ℚ) : String :=
  if p ≤ 30 then "Very Low"
  else if p ≤ 60 then "Low"
  else if p ≤ 120 then "Medium"
  else if p ≤ 250 then "High"
  else "Very High"

/-- One row of the delivery dataframe: the fields of `order_timeline` that
the reconciler (`adjust_timestamps_and_durations`) reads or writes, plus the
two adjusted-timestamp columns it adds. -/
structure OrderItemRecord where
  order_purchase_timestamp : Option Int
  order_approved_at : Option Int
  order_delivered_carrier_date : Option Int
  order_delivered_customer_date : Option Int
  order_estimated_delivery_date : Option Int
  approval_days : Option Int
  handling_days : Option Int
  in_transit_days : Option Int
  total_delivery_days : Option Int
  late_to_edd_flag : Int
  edd_delta_days : Option Int
  performance_category : String
  price : Option ℚ := none
  product_length_cm : Option ℚ := none
  product_width_cm : Option ℚ := none
  product_height_cm : Option ℚ := none
  product_volume_cm3 : Option ℚ := none
  volume_density_ratio : Option ℚ := none
  adjusted_carrier_date : Option Int := none
  adjusted_approved_at : Option Int := none
deriving DecidableEq

/-- The row the warehouse query (`get_mart_delivery_sla_query`) produces for
given lifecycle timestamps.  The query's `WHERE` clause guarantees that the
customer-delivery and estimated-delivery timestamps are non-null, so they are
taken plain; approval and carrier handoff stay nullable.  Durations are
calendar-date differences (`DATE_DIFF(DATE(..), DATE(..), DAY)`, lines
56-66), the late flag compares the full timestamps (line 63), and the
performance category applies `perfCategory` to the calendar EDD delta. -/
def queryRecord (purchase : Int) (approved carrier : Option Int)
    (customer estimated : Int) : OrderItemRecord where
  order_purchase_timestamp := some purchase
  order_approved_at := approved
  order_delivered_carrier_date := carrier
  order_delivered_customer_date := some customer
  order_estimated_delivery_date := some estimated
  approval_days := approved.map (fun a => dateDiff a purchase)
  handling_days := optDateDiff carrier approved
  in_transit_days := carrier.map (fun c => dateDiff customer c)
  total_delivery_days := some (dateDiff customer purchase)
  late_to_edd_flag := if customer > estimated then 1 else 0
  edd_delta_days := some (dateDiff customer estimated)
  performance_category := perfCategory (dateDiff customer estimated)

/-- `data_extraction.py`, `DataExtractor.adjust_timestamps_and_durations`
(lines 277-302), per record:
* `adjusted_carrier_date` (line 279): the customer-delivery timestamp when
  both carrier and customer timestamps are present and carrier > customer,
  otherwise the raw carrier timestamp;
* `adjusted_approved_at` (line 285): the **raw** carrier timestamp when both
  approval and carrier timestamps are present and approval > carrier,
  otherwise the raw approval timestamp (the comparison and the replacement
  value both use `row['order_delivered_carrier_date']`, not the adjusted
  column);
* durations (lines 293-295): `handling_days`, `in_transit_days` and
  `total_delivery_days` are recomputed from the adjusted timestamps with
  `.dt.days`; `approval_days` is left untouched;
* SLA fields (lines 301-302): the late flag and `edd_delta_days` are
  recomputed from the raw customer and estimated timestamps;
* `performance_category` is not recomputed. -/
def adjustRecord (r : OrderItemRecord) : OrderItemRecord :=
  let adjC : Option Int :=
    if optGT r.order_delivered_carrier_date r.order_delivered_customer_date
    then r.order_delivered_customer_date else r.order_delivered_carrier_date
  let adjA : Option Int :=
    if optGT r.order_approved_at r.order_delivered_carrier_date
    then r.order_delivered_carrier_date else r.order_approved_at
  { r with
    adjusted_carrier_date := adjC
    adjusted_approved_at := adjA
    handling_days := optSubDays adjC adjA
    in_transit_days := optSubDays r.order_delivered_customer_date adjC
    total_delivery_days :=
      optSubDays r.order_delivered_customer_date r.order_purchase_timestamp
    late_to_edd_flag :=
      if optGT r.order_delivered_customer_date r.order_estimated_delivery_date
      then 1 else 0
    edd_delta_days :=
      optSubDays r.order_delivered_customer_date
        r.order_estimated_delivery_date }

/-- A record built from bare timestamp columns (durations and SLA fields
left null/default), used to feed `adjustRecord` standalone, the way
`adjust_timestamps_and_durations` runs on an arbitrary dataframe. -/
def mkTimestamps (purchase approved carrier customer estimated : Option Int) :
    OrderItemRecord where
  order_purchase_timestamp := purchase
  order_approved_at := approved
  order_delivered_carrier_date := carrier
  order_delivered_customer_date := customer
  order_estimated_delivery_date := estimated
  approval_days := none
  handling_days := none
  in_transit_days := none
  total_delivery_days := none
  late_to_edd_flag := 0
  edd_delta_days := none
  performance_category := ""

/-- A record (timestamps in day-multiples of ticks) whose approval (day 5)
precedes the raw carrier handoff (day 10) while the customer delivery
(day 2) precedes both: the carrier clamp fires but the approval clamp,
compared against the raw carrier date, does not. -/
def lateCarrierRec : OrderItemRecord :=
  mkTimestamps none (some (5 * secPerDay)) (some (10 * secPerDay))
    (some (2 * secPerDay)) none

/-- The spec's clamp scenario, offset by an arbitrary day-aligned origin
`t0`: purchase at `t0`, approval at `t0 + 5` days, carrier handoff at
`t0 + 3` days, delivery at `t0 + 10` days, EDD at `t0 + 12` days, as
produced by the warehouse query. -/
def clampScenarioRec (t0 : Int) : OrderItemRecord :=
  queryRecord t0 (some (t0 + 5 * secPerDay)) (some (t0 + 3 * secPerDay))
    (t0 + 10 * secPerDay) (t0 + 12 * secPerDay)

/-! ## K-means cluster relabeling (`visualization.py`, lines 612-619 and
842-849).  `np.argsort(centers)` is an ascending sort of the cluster
indices by centre value (ties by index); `cluster_map` sends the cluster
id at position `j` of the argsort to the `j`-th ordinal label. -/

/-- Index comparison used to model `np.argsort` over the cluster-centre
array: ascending by centre value, ties broken by index. -/
def idxLe (keys : List ℚ) (i j : Nat) : Prop :=
  keys.getD i 0 < keys.getD j 0 ∨ (keys.getD i 0 = keys.getD j 0 ∧ i ≤ j)

instance (keys : List ℚ) : DecidableRel (idxLe keys) := fun i j =>
  inferInstanceAs (Decidable (_ ∨ _))

instance (keys : List ℚ) : IsTotal Nat (idxLe keys) where
  total i j := by
    unfold idxLe
    rcases lt_trichotomy (keys.getD i 0) (keys.getD j 0) with h | h | h
    · exact Or.inl (Or.inl h)
    · rcases Nat.le_total i j with hij | hij
      · exact Or.inl (Or.inr ⟨h, hij⟩)
      · exact Or.inr (Or.inr ⟨h.symm, hij⟩)
    · exact Or.inr (Or.inl h)

instance (keys : List ℚ) : IsTrans Nat (idxLe keys) where
  trans i j k hij hjk := by
    unfold idxLe at *
    rcases hij with h1 | ⟨e1, l1⟩ <;> rcases hjk with h2 | ⟨e2, l2⟩
    · exact Or.inl (h1.trans h2)
    · exact Or.inl (e2 ▸ h1)
    · exact Or.inl (e1 ▸ h2)
    · exact Or.inr ⟨e1.trans e2, l1.trans l2⟩

/-- `np.argsort(centers)`: the indices `0..k-1` sorted ascending by centre
value. -/
def argsort (keys : List ℚ) : List Nat :=
  List.insertionSort (idxLe keys) (List.range keys.length)

/-- `sorted_indices.index(c)`: the position of cluster id `c` in the
argsort — under the relabeling `cluster_map = {old_idx: label for old_idx,
label in zip(sorted_indices, cluster_labels)}` this is the index of the
ordinal label assigned to cluster `c`. -/
def clusterLabelIdx (keys : List ℚ) (c : Nat) : Nat :=
  (argsort keys).indexOf c

/-- The ordinal label assigned to cluster id `c` by `cluster_map`. -/
def clusterLabel (labels : List String) (keys : List ℚ) (c : Nat) : String :=
  labels.getD (clusterLabelIdx keys c) ""

/-- Position of a label in an ordinal label list (`Very Low < Low < ... `):
the label order used to compare two records' bins. -/
def labelRank (labels : List String) (s : String) : Nat := labels.indexOf s

/-- `cluster_labels` for the price bins (`plot_price_analysis`). -/
def priceClusterLabels : List String :=
  ["Very Low", "Low", "Medium", "High", "Very High"]

/-- `cluster_labels` for the distance bins
(`plot_route_distance_late_perc`). -/
def distanceClusterLabels : List String :=
  ["Very Short", "Short", "Medium", "Long", "Very Long"]

theorem argsort_perm (keys : List ℚ) :
    List.Perm (argsort keys) (List.range keys.length) :=
  List.perm_insertionSort _ _

theorem argsort_sorted (keys : List ℚ) :
    List.Sorted (idxLe keys) (argsort keys) :=
  List.sorted_insertionSort _ _

theorem mem_argsort (keys : List ℚ) {a : Nat} (ha : a < keys.length) :
    a ∈ argsort keys :=
  ((argsort_perm keys).mem_iff).2 (List.mem_range.2 ha)

theorem argsort_nodup (keys : List ℚ) : (argsort keys).Nodup :=
  ((argsort_perm keys).nodup_iff).2 (List.nodup_range _)

/-- Clusters with strictly smaller centres come strictly earlier in the
argsort, hence receive a strictly earlier ordinal label index. -/
theorem clusterLabelIdx_lt (keys : List ℚ) {a b : Nat}
    (ha : a < keys.length) (hb : b < keys.length)
    (h : keys.getD a 0 < keys.getD b 0) :
    clusterLabelIdx keys a < clusterLabelIdx keys b := by
  have hma : a ∈ argsort keys := mem_argsort keys ha
  have hmb : b ∈ argsort keys := mem_argsort keys hb
  have hia : (argsort keys).indexOf a < (argsort keys).length :=
    List.indexOf_lt_length.2 hma
  have hib : (argsort keys).indexOf b < (argsort keys).length :=
    List.indexOf_lt_length.2 hmb
  have hga : (argsort keys)[(argsort keys).indexOf a] = a :=
    List.getElem_indexOf hia
  have hgb : (argsort keys)[(argsort keys).indexOf b] = b :=
    List.getElem_indexOf hib
  have hab : a ≠ b := by
    intro e
    rw [e] at h
    exact lt_irrefl _ h
  by_contra hcon
  have hne : (argsort keys).indexOf b ≠ (argsort keys).indexOf a := by
    intro e
    exact hab ((List.indexOf_inj hma hmb).1 e.symm)
  simp only [clusterLabelIdx] at hcon
  have hlt : (argsort keys).indexOf b < (argsort keys).indexOf a := by
    omega
  have hpw := (List.pairwise_iff_get.1 (argsort_sorted keys))
    ⟨(argsort keys).indexOf b, hib⟩ ⟨(argsort keys).indexOf a, hia⟩ hlt
  simp only [List.get_eq_getElem, hga, hgb] at hpw
  rcases hpw with hlt2 | ⟨heq, _⟩
  · exact absurd (hlt2.trans h) (lt_irrefl _)
  · rw [heq] at h
    exact absurd h (lt_irrefl _)

end SLA

/-- **C1, counterexample.** On a record with approval at day 5, carrier
handoff at day 10 and delivery at day 2 (all non-null), the reconciler
clamps the carrier date back to day 2 but leaves the approval at day 5
(the approval clamp compares against the raw carrier date, day 10), so the
adjusted approval exceeds the adjusted carrier date: the claimed invariant
`approval_date <= carrier_date` fails after reconciliation. -/
theorem C1_counterexample :
    (SLA.adjustRecord SLA.lateCarrierRec).adjusted_approved_at
        = some (5 * SLA.secPerDay) ∧
    (SLA.adjustRecord SLA.lateCarrierRec).adjusted_carrier_date
        = some (2 * SLA.secPerDay) ∧
    ¬(5 * SLA.secPerDay ≤ 2 * SLA.secPerDay) := by decide

/-- **C1** (amended). After `adjust_timestamps_and_durations`: for every
record with non-null carrier and delivery timestamps, the adjusted carrier
date is `≤` the delivery date; and for every record with non-null approval
and carrier timestamps, the adjusted approval date is `≤` the **raw**
carrier-handoff date — the approval clamp is made against the raw carrier
timestamp, not the already-clamped one, so `approval ≤ adjusted carrier`
does not hold in general. -/
theorem C1_theorem (r : SLA.OrderItemRecord) :
    (∀ c d, r.order_delivered_carrier_date = some c →
        r.order_delivered_customer_date = some d →
        ∃ c0, (SLA.adjustRecord r).adjusted_carrier_date = some c0 ∧ c0 ≤ d) ∧
    (∀ a c, r.order_approved_at = some a →
        r.order_delivered_carrier_date = some c →
        ∃ a0, (SLA.adjustRecord r).adjusted_approved_at = some a0 ∧ a0 ≤ c) := by
  constructor
  · intro c d hc hd
    by_cases h : c > d
    · refine ⟨d, ?_, le_refl d⟩
      simp [SLA.adjustRecord, SLA.optGT, hc, hd, h]
    · refine ⟨c, ?_, by omega⟩
      simp [SLA.adjustRecord, SLA.optGT, hc, hd, h]
  · intro a c ha hc
    by_cases h : a > c
    · refine ⟨c, ?_, le_refl c⟩
      simp [SLA.adjustRecord, SLA.optGT, ha, hc, h]
    · refine ⟨a, ?_, by omega⟩
      simp [SLA.adjustRecord, SLA.optGT, ha, hc, h]

/-- Witness for C1: a concrete record (approval day 3, carrier day 10,
delivery day 7) on which both amended bounds are obtained from the
theorem. -/
theorem C1_witness :
    (∃ c0, (SLA.adjustRecord
        (SLA.mkTimestamps none (some 3) (some 10) (some 7) none)).adjusted_carrier_date
          = some c0 ∧ c0 ≤ 7) ∧
    (∃ a0, (SLA.adjustRecord
        (SLA.mkTimestamps none (some 3) (some 10) (some 7) none)).adjusted_approved_at
          = some a0 ∧ a0 ≤ 10) :=
  ⟨(C1_theorem _).1 10 7 rfl rfl, (C1_theorem _).2 3 10 rfl rfl⟩

/-- **C2, counterexample.** On the day-5-approval / day-10-carrier /
day-2-delivery record, the recomputed `handling_days` after reconciliation
is `-3`: the non-negative-durations claim fails (the code itself prints the
count of such negative rows). -/
theorem C2_counterexample :
    (SLA.adjustRecord SLA.lateCarrierRec).handling_days = some (-3) ∧
    ¬(0 ≤ (-3 : Int)) := by decide

/-- **C2** (amended). After reconciliation, with the relevant endpoints
non-null: `in_transit_days` is always non-negative; `handling_days` is
non-negative provided the raw carrier handoff is `≤` the delivery timestamp
(when the carrier clamp fired, handling can be negative); and
`total_delivery_days` is non-negative provided purchase `≤` delivery (the
reconciler never adjusts the purchase or delivery timestamps). -/
theorem C2_theorem (r : SLA.OrderItemRecord) :
    (∀ c d, r.order_delivered_carrier_date = some c →
        r.order_delivered_customer_date = some d →
        ∃ k, (SLA.adjustRecord r).in_transit_days = some k ∧ 0 ≤ k) ∧
    (∀ a c d, r.order_approved_at = some a →
        r.order_delivered_carrier_date = some c →
        r.order_delivered_customer_date = some d → c ≤ d →
        ∃ k, (SLA.adjustRecord r).handling_days = some k ∧ 0 ≤ k) ∧
    (∀ p d, r.order_purchase_timestamp = some p →
        r.order_delivered_customer_date = some d → p ≤ d →
        ∃ k, (SLA.adjustRecord r).total_delivery_days = some k ∧ 0 ≤ k) := by
  refine ⟨?_, ?_, ?_⟩
  · intro c d hc hd
    by_cases h : c > d
    · refine ⟨SLA.dtDays (d - d), ?_, ?_⟩
      · simp [SLA.adjustRecord, SLA.optGT, SLA.optSubDays, hc, hd, h]
      · simp [SLA.dtDays, SLA.secPerDay]
    · refine ⟨SLA.dtDays (d - c), ?_, ?_⟩
      · simp [SLA.adjustRecord, SLA.optGT, SLA.optSubDays, hc, hd, h]
      · simp only [SLA.dtDays, SLA.secPerDay]
        omega
  · intro a c d ha hc hd hcd
    have h : ¬(c > d) := by omega
    by_cases h2 : a > c
    · refine ⟨SLA.dtDays (c - c), ?_, ?_⟩
      · simp [SLA.adjustRecord, SLA.optGT, SLA.optSubDays, ha, hc, hd, h, h2]
      · simp [SLA.dtDays, SLA.secPerDay]
    · refine ⟨SLA.dtDays (c - a), ?_, ?_⟩
      · simp [SLA.adjustRecord, SLA.optGT, SLA.optSubDays, ha, hc, hd, h, h2]
      · simp only [SLA.dtDays, SLA.secPerDay]
        omega
  · intro p d hp hd hpd
    refine ⟨SLA.dtDays (d - p), ?_, ?_⟩
    · simp [SLA.adjustRecord, SLA.optGT, SLA.optSubDays, hp, hd]
    · simp only [SLA.dtDays, SLA.secPerDay]
      omega

/-- Witness for C2: a concrete well-ordered record (purchase 0, approval
day 1, carrier day 2, delivery day 5) on which all three non-negativity
bounds are obtained from the theorem. -/
theorem C2_witness :
    (∃ k, (SLA.adjustRecord
        (SLA.mkTimestamps (some 0) (some 1) (some 2) (some 5) none)).in_transit_days
          = some k ∧ 0 ≤ k) ∧
    (∃ k, (SLA.adjustRecord
        (SLA.mkTimestamps (some 0) (some 1) (some 2) (some 5) none)).handling_days
          = some k ∧ 0 ≤ k) ∧
    (∃ k, (SLA.adjustRecord
        (SLA.mkTimestamps (some 0) (some 1) (some 2) (some 5) none)).total_delivery_days
          = some k ∧ 0 ≤ k) :=
  ⟨(C2_theorem _).1 2 5 rfl rfl,
   (C2_theorem _).2.1 1 2 5 rfl rfl rfl (by decide),
   (C2_theorem _).2.2 0 5 rfl rfl (by decide)⟩

/-- **C3, counterexample.** On the scenario record (purchase `D0`, approval
`D0+5`, carrier handoff `D0+3`, taking `D0 = 0`), the reconciler does clamp
the adjusted approval to `D0+3`, but `approval_days` is **not** recomputed:
it keeps the raw value `5` derived from the unclamped approval, so the
claimed `approval_days = 3` is false. -/
theorem C3_counterexample :
    (SLA.adjustRecord (SLA.clampScenarioRec 0)).adjusted_approved_at
        = some (3 * SLA.secPerDay) ∧
    (SLA.adjustRecord (SLA.clampScenarioRec 0)).approval_days = some 5 ∧
    (5 : Int) ≠ 3 := by decide

/-- **C3** (amended). For the scenario record with any day-aligned origin
`t0` (purchase `t0`, approval `t0+5` days, carrier `t0+3` days): the
reconciler clamps `adjusted_approved_at` to `t0+3` days, but the
`approval_days` column is left at the raw value `5`; the clamped approval
shows up only in the recomputed `handling_days`, which becomes `0`. -/
theorem C3_theorem (t0 : Int) :
    (SLA.adjustRecord (SLA.clampScenarioRec t0)).adjusted_approved_at
        = some (t0 + 3 * SLA.secPerDay) ∧
    (SLA.adjustRecord (SLA.clampScenarioRec t0)).approval_days = some 5 ∧
    (SLA.adjustRecord (SLA.clampScenarioRec t0)).handling_days = some 0 := by
  have h1 : SLA.optGT (some (t0 + 5 * 86400))
      (some (t0 + 3 * 86400)) = true := by
    simp only [SLA.optGT, decide_eq_true_eq]
    omega
  have h2 : SLA.optGT (some (t0 + 3 * 86400))
      (some (t0 + 10 * 86400)) = false := by
    simp only [SLA.optGT, decide_eq_false_iff_not]
    omega
  refine ⟨?_, ?_, ?_⟩ <;>
    simp only [SLA.clampScenarioRec, SLA.queryRecord, SLA.adjustRecord, h1, h2,
      SLA.optSubDays, SLA.optDateDiff, SLA.dtDays, SLA.dateDiff, SLA.dateOf,
      SLA.secPerDay, Option.map, if_true, if_false, Bool.false_eq_true,
      Option.some.injEq] <;>
    omega

/-- **C4.** The fixed-threshold performance categorisation is total and
exclusive on `edd_delta_days`: each value falls in exactly one of the four
categories, characterised by `d ≤ -3 ↔ very_early`, `-3 < d ≤ 0 ↔ on_time`,
`0 < d ≤ 7 ↔ late`, `7 < d ↔ very_late`; in particular the boundary values
`-3, 0, 7, 8` map to `very_early`, `on_time`, `late`, `very_late`. -/
theorem C4_theorem (d : Int) :
    (SLA.perfCategory d = "very_early" ↔ d ≤ -3) ∧
    (SLA.perfCategory d = "on_time" ↔ (-3 < d ∧ d ≤ 0)) ∧
    (SLA.perfCategory d = "late" ↔ (0 < d ∧ d ≤ 7)) ∧
    (SLA.perfCategory d = "very_late" ↔ 7 < d) ∧
    SLA.perfCategory (-3) = "very_early" ∧
    SLA.perfCategory 0 = "on_time" ∧
    SLA.perfCategory 7 = "late" ∧
    SLA.perfCategory 8 = "very_late" := by
  refine ⟨?_, ?_, ?_, ?_, by decide, by decide, by decide, by decide⟩ <;>
  · unfold SLA.perfCategory
    split_ifs <;> simp_all <;> omega

/-- Positions strictly earlier in the price label list have
`List.indexOf`-rank no greater. -/
theorem rankPriceMono {i j : Nat} (hij : i < j) (hj : j < 5) :
    List.indexOf (SLA.priceClusterLabels.getD i "") SLA.priceClusterLabels ≤
      List.indexOf (SLA.priceClusterLabels.getD j "") SLA.priceClusterLabels := by
  interval_cases j <;> interval_cases i <;> decide

/-- Positions strictly earlier in the distance label list have
`List.indexOf`-rank no greater. -/
theorem rankDistanceMono {i j : Nat} (hij : i < j) (hj : j < 5) :
    List.indexOf (SLA.distanceClusterLabels.getD i "") SLA.distanceClusterLabels ≤
      List.indexOf (SLA.distanceClusterLabels.getD j "") SLA.distanceClusterLabels := by
  interval_cases j <;> interval_cases i <;> decide

/-- **C5.** K-means relabeling monotonicity: for any 5 cluster centres and
any two cluster ids `a`, `b`, if the centre of `a` is strictly smaller than
the centre of `b`, then the ordinal label `cluster_map` assigns to `a` is
no greater (in the `Very Low < ... < Very High`, resp.
`Very Short < ... < Very Long` order) than the label it assigns to `b` —
regardless of the arbitrary internal cluster indexing.  A record placed in
the smaller-centre cluster therefore receives a label no greater than one
placed in the larger-centre cluster. -/
theorem C5_theorem (keys : List ℚ) (a b : Nat) (hlen : keys.length = 5)
    (ha : a < keys.length) (hb : b < keys.length)
    (hab : keys.getD a 0 < keys.getD b 0) :
    SLA.labelRank SLA.priceClusterLabels
        (SLA.clusterLabel SLA.priceClusterLabels keys a) ≤
      SLA.labelRank SLA.priceClusterLabels
        (SLA.clusterLabel SLA.priceClusterLabels keys b) ∧
    SLA.labelRank SLA.distanceClusterLabels
        (SLA.clusterLabel SLA.distanceClusterLabels keys a) ≤
      SLA.labelRank SLA.distanceClusterLabels
        (SLA.clusterLabel SLA.distanceClusterLabels keys b) := by
  have hidx := SLA.clusterLabelIdx_lt keys ha hb hab
  have hlb : b ∈ SLA.argsort keys := SLA.mem_argsort keys hb
  have hjb : SLA.clusterLabelIdx keys b < 5 := by
    have hl : (SLA.argsort keys).length = 5 := by
      rw [(SLA.argsort_perm keys).length_eq, List.length_range, hlen]
    have := List.indexOf_lt_length.2 hlb
    rw [hl] at this
    exact this
  simp only [SLA.clusterLabel, SLA.labelRank]
  exact ⟨rankPriceMono hidx hjb, rankDistanceMono hidx hjb⟩

/-- Witness for C5: with centres `[150, 10, 300, 40, 80]` (arbitrary
internal k-means order), cluster 1 (centre 10) receives a label ordinally
no greater than cluster 4 (centre 80). -/
theorem C5_witness :
    SLA.labelRank SLA.priceClusterLabels
        (SLA.clusterLabel SLA.priceClusterLabels [150, 10, 300, 40, 80] 1) ≤
      SLA.labelRank SLA.priceClusterLabels
        (SLA.clusterLabel SLA.priceClusterLabels [150, 10, 300, 40, 80] 4) ∧
    SLA.labelRank SLA.distanceClusterLabels
        (SLA.clusterLabel SLA.distanceClusterLabels [150, 10, 300, 40, 80] 1) ≤
      SLA.labelRank SLA.distanceClusterLabels
        (SLA.clusterLabel SLA.distanceClusterLabels [150, 10, 300, 40, 80] 4) :=
  C5_theorem [150, 10, 300, 40, 80] 1 4 (by decide) (by decide) (by decide)
    (by decide)

namespace SLA

/-- Modelled from the spec's words for comparison (claim C10): the claim
describes the post-reconciliation `edd_delta_days` as "a whole-day
calendar-date difference", i.e. `DATE_DIFF(DATE(delivery), DATE(edd), DAY)`
— the pre-reconciliation SQL semantics — applied to the record's
timestamps. -/
def eddDeltaCalendarSpec (r : OrderItemRecord) : Option Int :=
  optDateDiff r.order_delivered_customer_date r.order_estimated_delivery_date

/-- A query record delivered two hours after its EDD, crossing midnight:
EDD at 23:00 of day 0 (tick 82800), delivery at 01:00 of day 1
(tick 90000). -/
def crossMidnightRec : OrderItemRecord := queryRecord 0 none none 90000 82800

/-- A query record delivered one hour after its EDD on the same calendar
day: EDD at 12:00 (tick 43200), delivery at 13:00 (tick 46800). -/
def sameDayLateRec : OrderItemRecord := queryRecord 0 none none 46800 43200

end SLA

/-- **C10, counterexample.** For the record delivered at 01:00 the day
after a 23:00 EDD, the reconciled `edd_delta_days` is `0` (floor of the
2-hour timedelta), while the calendar-date difference the claim describes
is `1`: `edd_delta_days` after reconciliation is **not** a calendar-date
difference. -/
theorem C10_counterexample :
    (SLA.adjustRecord SLA.crossMidnightRec).edd_delta_days = some 0 ∧
    SLA.eddDeltaCalendarSpec (SLA.adjustRecord SLA.crossMidnightRec) = some 1 ∧
    some (0 : Int) ≠ some (1 : Int) := by decide

/-- **C10** (amended). After reconciliation `late_to_edd_flag` compares the
full delivery and EDD timestamps while `edd_delta_days` is the **floor of
the timestamp difference in whole days** (not a calendar-date difference).
Consequently: every flagged record has `edd_delta_days ≥ 0`; and there is a
record flagged late with `edd_delta_days = 0` (delivered within a day after
the EDD timestamp) whose performance category is `on_time` — a record can
be flagged late while categorised `on_time`. -/
theorem C10_theorem :
    (∀ r : SLA.OrderItemRecord, (SLA.adjustRecord r).late_to_edd_flag = 1 →
        ∃ k, (SLA.adjustRecord r).edd_delta_days = some k ∧ 0 ≤ k) ∧
    ((SLA.adjustRecord SLA.sameDayLateRec).late_to_edd_flag = 1 ∧
      (SLA.adjustRecord SLA.sameDayLateRec).edd_delta_days = some 0 ∧
      (SLA.adjustRecord SLA.sameDayLateRec).performance_category
        = "on_time") := by
  constructor
  · intro r hf
    cases hB : SLA.optGT r.order_delivered_customer_date
        r.order_estimated_delivery_date with
    | false =>
        simp only [SLA.adjustRecord, hB, Bool.false_eq_true, if_false] at hf
        exact absurd hf (by decide)
    | true =>
        cases hc : r.order_delivered_customer_date with
        | none =>
            rw [hc] at hB
            simp [SLA.optGT] at hB
        | some c =>
          cases he : r.order_estimated_delivery_date with
          | none =>
              rw [hc, he] at hB
              simp [SLA.optGT] at hB
          | some e =>
              have hce : e < c := by
                rw [hc, he] at hB
                simp only [SLA.optGT, decide_eq_true_eq] at hB
                exact hB
              refine ⟨SLA.dtDays (c - e), ?_, ?_⟩
              · simp [SLA.adjustRecord, SLA.optSubDays, hc, he]
              · simp only [SLA.dtDays, SLA.secPerDay]
                omega
  · exact ⟨by decide, by decide, by decide⟩

/-- Witness for C10: a record delivered two whole days after its EDD is
flagged late, and the theorem yields its non-negative `edd_delta_days`. -/
theorem C10_witness :
    ∃ k, (SLA.adjustRecord
        (SLA.queryRecord 0 none none (2 * 86400) 0)).edd_delta_days
          = some k ∧ 0 ≤ k :=
  C10_theorem.1 _ (by decide)

namespace SLA

/-! ## Aggregator/Analyzer (`analysis.py`, `sla_metrics.py`)

The enriched dataframe is modelled as a `List AnalysisRow` carrying the
columns the aggregation functions read.  `groupby` over a column is
modelled as grouping by first occurrence of each distinct key; pandas
sorts group keys, but no claim depends on row order of the aggregate
tables.  Means over nullable columns skip nulls (pandas `mean` skips
`NaN`), yielding `none` when no value is present. -/

/-- One row of the enriched delivery dataframe, restricted to the columns
the aggregation functions read. -/
structure AnalysisRow where
  order_id : Nat
  customer_state : String
  product_category_name_english : String
  order_dow : Nat
  order_month : Nat
  price : Option ℚ
  distance_km : Option ℚ
  price_bin : String
  performance_category : String
  late_to_edd_flag : Int
  edd_delta_days : Option Int
  total_delivery_days : Option Int
  early_days : Option Int
  days_late_to_edd : Option Int
  approval_days : Option Int
  handling_days : Option Int
  in_transit_days : Option Int
deriving DecidableEq

/-- pandas `mean` of a nullable integer column: nulls are skipped; the mean
of an all-null column is null. -/
def optMeanInt (xs : List (Option Int)) : Option ℚ :=
  let v := xs.filterMap id
  if v.length = 0 then none else some ((v.sum : ℚ) / (v.length : ℚ))

/-- pandas `median` of a nullable integer column: nulls skipped, middle
element of the sorted values (average of the two middles when even). -/
def medianInt (xs : List (Option Int)) : Option ℚ :=
  let s := List.insertionSort (· ≤ ·) (xs.filterMap id)
  if s.length = 0 then none
  else if s.length % 2 = 1 then some ((s.getD (s.length / 2) 0 : ℚ))
  else some (((s.getD (s.length / 2 - 1) 0 : ℚ) + (s.getD (s.length / 2) 0 : ℚ)) / 2)

/-- Mean of the (never-null) late flag over a group: the group late rate. -/
def lateRateOf (g : List AnalysisRow) : ℚ :=
  ((g.map (·.late_to_edd_flag)).sum : ℚ) / (g.length : ℚ)

/-- The `{late_to_edd_flag: [mean, count], edd_delta_days: mean,
total_delivery_days: mean}` aggregate used by the state, category and
distance groupings. -/
structure GroupStats where
  lateRate : ℚ
  orderCount : Nat
  avgEddDelta : Option ℚ
  avgDeliveryDays : Option ℚ
deriving DecidableEq

/-- The `{late_to_edd_flag: mean, edd_delta_days: mean, order_id: count}`
aggregate used by the day-of-week and monthly groupings. -/
structure DowStats where
  lateRate : ℚ
  avgEddDelta : Option ℚ
  orderCount : Nat
deriving DecidableEq

/-- The `{late_to_edd_flag: [mean, count], total_delivery_days: mean}`
aggregate used by the price-bin grouping. -/
structure PriceStats where
  lateRate : ℚ
  orderCount : Nat
  avgDeliveryDays : Option ℚ
deriving DecidableEq

/-- Aggregate one group for the state/category/distance tables. -/
def aggStats (g : List AnalysisRow) : GroupStats where
  lateRate := lateRateOf g
  orderCount := g.length
  avgEddDelta := optMeanInt (g.map (·.edd_delta_days))
  avgDeliveryDays := optMeanInt (g.map (·.total_delivery_days))

/-- Descending-late-rate order on aggregate rows
(`sort_values('Late_Rate', ascending=False)`). -/
def rateDesc (x y : String × GroupStats) : Prop :=
  y.2.lateRate ≤ x.2.lateRate

instance : DecidableRel rateDesc := fun x y =>
  inferInstanceAs (Decidable (_ ≤ _))

/-- `analysis.py` lines 43-50 (`perform_geographic_analysis`, state level):
group by `customer_state`, aggregate, keep groups with
`Order_Count >= 100`, sort by late rate descending. -/
def stateAnalysis (df : List AnalysisRow) : List (String × GroupStats) :=
  List.insertionSort rateDesc
    ((((df.map (·.customer_state)).dedup).map
        (fun k => (k, aggStats (df.filter (fun r => r.customer_state = k))))).filter
      (fun p => 100 ≤ p.2.orderCount))

/-- `analysis.py` lines 214-221 (`perform_product_analysis`): group by
`product_category_name_english`, aggregate, keep groups with
`Order_Count >= 100`, sort by late rate descending. -/
def categoryAnalysis (df : List AnalysisRow) : List (String × GroupStats) :=
  List.insertionSort rateDesc
    ((((df.map (·.product_category_name_english)).dedup).map
        (fun k => (k, aggStats
          (df.filter (fun r => r.product_category_name_english = k))))).filter
      (fun p => 100 ≤ p.2.orderCount))

/-- `analysis.py` lines 63-67: `pd.cut(distance_km,
bins=[0, 100, 300, 600, 1000, inf])` — left-open, right-closed intervals;
out-of-range (`<= 0`) and null distances get a null bin. -/
def distanceBinGeo (d : ℚ) : Option String :=
  if d ≤ 0 then none
  else if d ≤ 100 then some "<100km"
  else if d ≤ 300 then some "100-300km"
  else if d ≤ 600 then some "300-600km"
  else if d ≤ 1000 then some "600-1000km"
  else some ">1000km"

/-- `analysis.py` lines 69-76 (`perform_geographic_analysis`, distance
level): group by distance bin (null bins dropped, as pandas drops NaN group
keys; empty categorical bins would carry count 0 and be dropped by the
filter anyway), keep groups with `Order_Count >= 50`. -/
def distanceAnalysisGeo (df : List AnalysisRow) : List (String × GroupStats) :=
  (((df.filterMap (fun r => r.distance_km.bind distanceBinGeo)).dedup).map
      (fun k => (k, aggStats
        (df.filter (fun r => r.distance_km.bind distanceBinGeo = some k))))).filter
    (fun p => 50 ≤ p.2.orderCount)

/-- `analysis.py` lines 155-161 (`perform_temporal_analysis`, day-of-week):
group by `order_dow`, aggregate — **no** minimum-support filter is applied
(the index renaming to day names is cosmetic and omitted). -/
def dowAnalysis (df : List AnalysisRow) : List (Nat × DowStats) :=
  ((df.map (·.order_dow)).dedup).map (fun k =>
    let g := df.filter (fun r => r.order_dow = k)
    (k, ⟨lateRateOf g, optMeanInt (g.map (·.edd_delta_days)), g.length⟩))

/-- `analysis.py` lines 177-183 (`perform_temporal_analysis`, monthly):
group by `order_month`, aggregate — no minimum-support filter (month-name
renaming omitted as cosmetic). -/
def monthlyAnalysis (df : List AnalysisRow) : List (Nat × DowStats) :=
  ((df.map (·.order_month)).dedup).map (fun k =>
    let g := df.filter (fun r => r.order_month = k)
    (k, ⟨lateRateOf g, optMeanInt (g.map (·.edd_delta_days)), g.length⟩))

/-- The `desired_order` of price-bin labels used to reorder the price
table (`analysis.py` line 267). -/
def priceBinOrder : List String :=
  ["Very Low", "Low", "Medium", "High", "Very High"]

/-- `analysis.py` lines 258-268 (`perform_price_analysis`): group by the
`price_bin` column, aggregate, keep groups with `Order_Count >= 10`, then
reindex to the desired label order dropping absent labels. -/
def priceAnalysis (df : List AnalysisRow) : List (String × PriceStats) :=
  let tbl := ((((df.map (·.price_bin)).dedup).map (fun k =>
      let g := df.filter (fun r => r.price_bin = k)
      (k, PriceStats.mk (lateRateOf g) g.length
        (optMeanInt (g.map (·.total_delivery_days)))))).filter
    (fun p => 10 ≤ p.2.orderCount))
  priceBinOrder.filterMap (fun lbl => tbl.find? (fun p => p.1 = lbl))

end SLA

namespace SLA

/-- The dictionary returned by `SLAMetrics.calculate_key_metrics`
(`sla_metrics.py` lines 54-64). -/
structure KeyMetrics where
  total_orders : Nat
  late_rate_pct : ℚ
  on_time_rate_pct : ℚ
  strict_on_time_rate_pct : ℚ
  early_rate_pct : ℚ
  avg_early_margin_days : Option ℚ
  avg_late_days : Option ℚ
  avg_total_delivery_days : Option ℚ
  avg_approval_days : Option ℚ
  avg_handling_days : Option ℚ
  avg_in_transit_days : Option ℚ
deriving DecidableEq

/-- `sla_metrics.py`, `SLAMetrics.calculate_key_metrics` (lines 17-64):
returns the empty dictionary (`none`) on an empty dataframe, otherwise the
key-metric record.  Rate divisions are guarded by `if total_orders > 0`
exactly as in the source. -/
def calculateKeyMetrics (df : List AnalysisRow) : Option KeyMetrics :=
  if df = [] then none
  else
    let total : Nat := df.length
    let late : Int := (df.map (·.late_to_edd_flag)).sum
    let lateRate : ℚ := if 0 < total then (late : ℚ) / (total : ℚ) else 0
    let strictOnTime : Nat :=
      (df.filter (fun r => r.performance_category = "on_time")).length
    let early : Nat :=
      (df.filter (fun r => r.performance_category = "early")).length +
        (df.filter (fun r => r.performance_category = "very_early")).length
    some
      { total_orders := total
        late_rate_pct := lateRate * 100
        on_time_rate_pct := (1 - lateRate) * 100
        strict_on_time_rate_pct :=
          (if 0 < total then (strictOnTime : ℚ) / (total : ℚ) else 0) * 100
        early_rate_pct :=
          (if 0 < total then (early : ℚ) / (total : ℚ) else 0) * 100
        avg_early_margin_days := optMeanInt (df.map (·.early_days))
        avg_late_days :=
          if 0 < late then
            optMeanInt ((df.filter
              (fun r => r.late_to_edd_flag = 1)).map (·.days_late_to_edd))
          else some 0
        avg_total_delivery_days := optMeanInt (df.map (·.total_delivery_days))
        avg_approval_days := optMeanInt (df.map (·.approval_days))
        avg_handling_days := optMeanInt (df.map (·.handling_days))
        avg_in_transit_days := optMeanInt (df.map (·.in_transit_days)) }

/-- One row of the `get_performance_summary` table. -/
structure PerfRow where
  orderCount : Nat
  avgEddDelta : Option ℚ
  medianEddDelta : Option ℚ
  avgDeliveryDays : Option ℚ
  percentage : ℚ
deriving DecidableEq

/-- Descending-count order (`sort_values('Order_Count',
ascending=False)`). -/
def countDesc (x y : String × PerfRow) : Prop :=
  y.2.orderCount ≤ x.2.orderCount

instance : DecidableRel countDesc := fun x y =>
  inferInstanceAs (Decidable (_ ≤ _))

/-- `sla_metrics.py`, `SLAMetrics.get_performance_summary` (lines 66-92):
empty dataframe in, empty table out; otherwise group by
`performance_category` with count, mean and median EDD delta, mean
delivery days and percentage of total, sorted by count descending. -/
def getPerformanceSummary (df : List AnalysisRow) : List (String × PerfRow) :=
  if df = [] then []
  else
    let base := ((df.map (·.performance_category)).dedup).map (fun k =>
      (k, df.filter (fun r => r.performance_category = k)))
    let total : Nat := (base.map (fun p => p.2.length)).sum
    List.insertionSort countDesc (base.map (fun p =>
      (p.1, PerfRow.mk p.2.length
        (optMeanInt (p.2.map (·.edd_delta_days)))
        (medianInt (p.2.map (·.edd_delta_days)))
        (optMeanInt (p.2.map (·.total_delivery_days)))
        ((p.2.length : ℚ) / (total : ℚ) * 100))))

/-- One stage's row of the bottleneck comparison table.  Divisions are
modelled with total `ℚ` division; the `Impact` percentage is a float
heuristic in the source. -/
structure StageComparison where
  lateMean : Option ℚ
  ontimeMean : Option ℚ
  difference : Option ℚ
  impact : Option ℚ
deriving DecidableEq

/-- Late-vs-on-time comparison of one stage-duration column
(`analysis.py` lines 106-115). -/
def stageCompare (late ontime : List AnalysisRow)
    (f : AnalysisRow → Option Int) : StageComparison :=
  let lm := optMeanInt (late.map f)
  let om := optMeanInt (ontime.map f)
  let diff : Option ℚ := match lm, om with
    | some a, some b => some (a - b)
    | _, _ => none
  let imp : Option ℚ := match diff, om with
    | some d, some b => some (d / b * 100)
    | _, _ => none
  ⟨lm, om, diff, imp⟩

/-- pandas `Series.idxmax` over the three stage impacts: nulls skipped,
first occurrence of the maximum wins; null when no value is present. -/
def idxmaxImpact (l : List (String × Option ℚ)) : Option String :=
  match l.filterMap (fun p => p.2.map (fun v => (p.1, v))) with
  | [] => none
  | x :: xs =>
    some (xs.foldl (fun best y => if best.2 < y.2 then y else best) x).1

/-- The dictionary returned by `perform_stage_bottleneck_analysis`. -/
structure BottleneckResult where
  approval : StageComparison
  handling : StageComparison
  inTransit : StageComparison
  primaryStage : Option String
deriving DecidableEq

/-- `analysis.py`, `SLAAnalyzer.perform_stage_bottleneck_analysis` (lines
86-135): empty dataframe in, empty dictionary (`none`) out; otherwise the
per-stage late-vs-on-time comparison and the primary bottleneck
(`Impact` idxmax). -/
def performBottleneckAnalysis (df : List AnalysisRow) :
    Option BottleneckResult :=
  if df = [] then none
  else
    let late := df.filter (fun r => r.late_to_edd_flag = 1)
    let ontime := df.filter (fun r => r.late_to_edd_flag = 0)
    let a := stageCompare late ontime (·.approval_days)
    let h := stageCompare late ontime (·.handling_days)
    let t := stageCompare late ontime (·.in_transit_days)
    some ⟨a, h, t, idxmaxImpact
      [("approval_days", a.impact), ("handling_days", h.impact),
        ("in_transit_days", t.impact)]⟩

/-- `analysis.py`, `SLAAnalyzer.perform_geographic_analysis` (lines 26-84):
empty dataframe in, empty dictionary (`none`) out; otherwise the state and
distance aggregate tables. -/
def performGeographicAnalysis (df : List AnalysisRow) :
    Option (List (String × GroupStats) × List (String × GroupStats)) :=
  if df = [] then none else some (stateAnalysis df, distanceAnalysisGeo df)

/-- `analysis.py`, `SLAAnalyzer.perform_temporal_analysis` (lines 137-195):
empty dataframe in, empty dictionary (`none`) out; otherwise the
day-of-week table, plus the monthly table when more than three distinct
months are present (`nunique() > 3`). -/
def performTemporalAnalysis (df : List AnalysisRow) :
    Option (List (Nat × DowStats) × Option (List (Nat × DowStats))) :=
  if df = [] then none
  else some (dowAnalysis df,
    if 3 < ((df.map (·.order_month)).dedup).length
    then some (monthlyAnalysis df) else none)

/-- `analysis.py`, `SLAAnalyzer.perform_product_analysis` (lines 197-233):
empty dataframe in, empty dictionary (`none`) out; otherwise the category
aggregate table. -/
def performProductAnalysis (df : List AnalysisRow) :
    Option (List (String × GroupStats)) :=
  if df = [] then none else some (categoryAnalysis df)

/-- `analysis.py`, `SLAAnalyzer.perform_price_analysis` (lines 235-276):
empty dataframe (or missing price column, which cannot occur in this
model) in, empty dictionary (`none`) out; otherwise the price-bin
aggregate table. -/
def performPriceAnalysis (df : List AnalysisRow) :
    Option (List (String × PriceStats)) :=
  if df = [] then none else some (priceAnalysis df)

/-- A single enriched row used to probe the aggregate tables on concrete
input. -/
def sampleRow : AnalysisRow where
  order_id := 1
  customer_state := "AC"
  product_category_name_english := "toys"
  order_dow := 1
  order_month := 1
  price := some 45
  distance_km := some 10
  price_bin := "Low"
  performance_category := "on_time"
  late_to_edd_flag := 0
  edd_delta_days := none
  total_delivery_days := none
  early_days := none
  days_late_to_edd := none
  approval_days := none
  handling_days := none
  in_transit_days := none

/-- One hundred identical enriched rows (state `SP`): a dataframe on which
every support-filtered aggregate table is non-empty. -/
def df100 : List AnalysisRow :=
  List.replicate 100 { sampleRow with customer_state := "SP" }

end SLA

/-- **C6, counterexample.** The day-of-week aggregate table — a ranked
dimension (the worst/best day are read off it) — has **no** minimum-support
filter: on a dataframe with a single record, the table contains that day's
group with count `1 < 100`, so a below-threshold group appears in a ranked
output. -/
theorem C6_counterexample :
    ∃ p ∈ SLA.dowAnalysis [SLA.sampleRow], p.2.orderCount < 100 := by decide

/-- **C6** (amended). The support filters that exist hold: every row of the
state and product-category tables has count `≥ 100`, every row of the
geographic distance-bin table has count `≥ 50`, and every row of the
price-bin table has count `≥ 10`.  The day-of-week (and monthly) tables are
not support-filtered. -/
theorem C6_theorem (df : List SLA.AnalysisRow) :
    (∀ p, p ∈ SLA.stateAnalysis df → 100 ≤ p.2.orderCount) ∧
    (∀ p, p ∈ SLA.categoryAnalysis df → 100 ≤ p.2.orderCount) ∧
    (∀ p, p ∈ SLA.distanceAnalysisGeo df → 50 ≤ p.2.orderCount) ∧
    (∀ p, p ∈ SLA.priceAnalysis df → 10 ≤ p.2.orderCount) := by
  refine ⟨?_, ?_, ?_, ?_⟩
  · intro p hp
    simp only [SLA.stateAnalysis, List.mem_insertionSort] at hp
    exact of_decide_eq_true (List.mem_filter.1 hp).2
  · intro p hp
    simp only [SLA.categoryAnalysis, List.mem_insertionSort] at hp
    exact of_decide_eq_true (List.mem_filter.1 hp).2
  · intro p hp
    simp only [SLA.distanceAnalysisGeo] at hp
    exact of_decide_eq_true (List.mem_filter.1 hp).2
  · intro p hp
    simp only [SLA.priceAnalysis] at hp
    obtain ⟨lbl, _, hfind⟩ := List.mem_filterMap.1 hp
    have hmem := List.mem_of_find?_eq_some hfind
    exact of_decide_eq_true (List.mem_filter.1 hmem).2

set_option maxRecDepth 100000 in
/-- Witness for C6: on the 100-identical-row dataframe every filtered table
is non-empty, and the theorem yields the support bound for a row of each. -/
theorem C6_witness :
    (∃ p ∈ SLA.stateAnalysis SLA.df100, 100 ≤ p.2.orderCount) ∧
    (∃ p ∈ SLA.categoryAnalysis SLA.df100, 100 ≤ p.2.orderCount) ∧
    (∃ p ∈ SLA.distanceAnalysisGeo SLA.df100, 50 ≤ p.2.orderCount) ∧
    (∃ p ∈ SLA.priceAnalysis SLA.df100, 10 ≤ p.2.orderCount) := by
  obtain ⟨p1, hp1⟩ := List.exists_mem_of_ne_nil _
    (by decide : SLA.stateAnalysis SLA.df100 ≠ [])
  obtain ⟨p2, hp2⟩ := List.exists_mem_of_ne_nil _
    (by decide : SLA.categoryAnalysis SLA.df100 ≠ [])
  obtain ⟨p3, hp3⟩ := List.exists_mem_of_ne_nil _
    (by decide : SLA.distanceAnalysisGeo SLA.df100 ≠ [])
  obtain ⟨p4, hp4⟩ := List.exists_mem_of_ne_nil _
    (by decide : SLA.priceAnalysis SLA.df100 ≠ [])
  exact ⟨⟨p1, hp1, (C6_theorem SLA.df100).1 p1 hp1⟩,
    ⟨p2, hp2, (C6_theorem SLA.df100).2.1 p2 hp2⟩,
    ⟨p3, hp3, (C6_theorem SLA.df100).2.2.1 p3 hp3⟩,
    ⟨p4, hp4, (C6_theorem SLA.df100).2.2.2 p4 hp4⟩⟩

/-- **C8.** Every aggregation operation — key metrics, performance summary,
and the geographic, bottleneck, temporal, product and price analyses —
returns its empty result (empty dictionary, modelled `none`, or empty
table) when applied to an empty dataset: each function's first action is
the empty-input guard, so no downstream computation (and hence no error)
can occur. -/
theorem C8_theorem :
    SLA.calculateKeyMetrics [] = none ∧
    SLA.getPerformanceSummary [] = [] ∧
    SLA.performGeographicAnalysis [] = none ∧
    SLA.performBottleneckAnalysis [] = none ∧
    SLA.performTemporalAnalysis [] = none ∧
    SLA.performProductAnalysis [] = none ∧
    SLA.performPriceAnalysis [] = none :=
  ⟨rfl, rfl, rfl, rfl, rfl, rfl, rfl⟩

namespace SLA

/-! ## Extractor caching (`data_extraction.py`,
`DataExtractor.extract_delivery_data`, lines 143-233). -/

/-- The parquet cache file: its rows, and whether the volume columns are
present (`'product_volume_cm3' in df.columns`). -/
structure CacheFile where
  rows : List OrderItemRecord
  hasVolumeCols : Bool
deriving DecidableEq

/-- The extraction environment: the cache file (if `cache_path.exists()`)
and the row set the full warehouse query would return (already ordered by
the query's `ORDER BY`). -/
structure ExtractState where
  cache : Option CacheFile
  warehouse : List OrderItemRecord
deriving DecidableEq

/-- What one call to `extract_delivery_data` produces and does: the
returned dataframe, the cache file afterwards, and whether the cache file
was read / written. -/
structure ExtractOutcome where
  result : List OrderItemRecord
  cacheAfter : Option CacheFile
  cacheRead : Bool
  cacheWritten : Bool
deriving DecidableEq

/-- Python truthiness of the `limit` argument (`if limit:`): `None` and
`0` are falsy. -/
def limitTruthy : Option Nat → Bool
  | some n => n ≠ 0
  | none => false

/-- The `LIMIT` clause appended to the query when `limit` is truthy
(line 193-194). -/
def takeLimit (limit : Option Nat) (rows : List OrderItemRecord) :
    List OrderItemRecord :=
  match limit with
  | some n => if n ≠ 0 then rows.take n else rows
  | none => rows

/-- `data_extraction.py`, `compute_product_volume` (lines 307-373), per
record: volume = `length × width × height`, density ratio =
`price / (volume + 1e-6)`; a null factor yields a null result (the column
reordering is cosmetic and not modelled). -/
def computeVolumeRecord (r : OrderItemRecord) : OrderItemRecord :=
  let vol : Option ℚ :=
    match r.product_length_cm, r.product_width_cm, r.product_height_cm with
    | some l, some w, some h => some (l * w * h)
    | _, _, _ => none
  let ratio : Option ℚ :=
    match r.price, vol with
    | some p, some v => some (p / (v + 1 / 1000000))
    | _, _ => none
  { r with product_volume_cm3 := vol, volume_density_ratio := ratio }

/-- `compute_product_volume` over the dataframe. -/
def computeVolumeRows (rows : List OrderItemRecord) : List OrderItemRecord :=
  rows.map computeVolumeRecord

/-- `data_extraction.py`, `DataExtractor.extract_delivery_data`:
* if `use_cache` and the cache file exists (line 170): read the cache,
  compute the volume columns if absent (lines 178-180), truncate with
  `df.head(limit)` when `limit` is truthy and the cached table is longer
  (lines 183-185), and return — the cache is read regardless of `limit`,
  and never written on this path;
* otherwise (lines 190-229): run the warehouse query (with a `LIMIT`
  clause when `limit` is truthy), reconcile timestamps, compute volume,
  and write the cache iff `use_cache and not limit` (line 222). -/
def extractDeliveryData (st : ExtractState) (limit : Option Nat)
    (useCache : Bool) : ExtractOutcome :=
  match useCache, st.cache with
  | true, some cf =>
      let df0 := if cf.hasVolumeCols then cf.rows else computeVolumeRows cf.rows
      let df1 := match limit with
        | some n => if n ≠ 0 ∧ n < df0.length then df0.take n else df0
        | none => df0
      ⟨df1, st.cache, true, false⟩
  | _, _ =>
      let df := computeVolumeRows ((takeLimit limit st.warehouse).map adjustRecord)
      if useCache && !(limitTruthy limit) then
        ⟨df, some ⟨df, true⟩, false, true⟩
      else
        ⟨df, st.cache, false, false⟩

/-- An extraction state whose cache holds one (volume-complete) record
while the warehouse would return nothing: reading the cache and querying
fresh are observably different. -/
def cachedState : ExtractState where
  cache := some ⟨[mkTimestamps none none none none none], true⟩
  warehouse := []

end SLA

/-- **C7, counterexample.** Calling `extract_delivery_data` with the
non-None limit `1`, caching enabled and a cache file present reads the
cache (`cacheRead = true`) and returns the cached rows, not a fresh
warehouse extract: the claim that a record limit bypasses the cache read is
false — only the cache *write* is suppressed. -/
theorem C7_counterexample :
    (SLA.extractDeliveryData SLA.cachedState (some 1) true).cacheRead = true ∧
    (SLA.extractDeliveryData SLA.cachedState (some 1) true).result ≠
      SLA.computeVolumeRows
        ((SLA.takeLimit (some 1) SLA.cachedState.warehouse).map
          SLA.adjustRecord) := by decide

/-- **C7** (amended). For every call with a non-None limit `n`: if `n ≠ 0`
the cache file is never written and its contents are unchanged; the cache
**is** read exactly when caching is enabled and the cache file exists (the
limit is then applied by truncating the cached table); and the result is a
fresh warehouse extract only on the no-cache path (caching disabled or no
cache file). -/
theorem C7_theorem (st : SLA.ExtractState) (n : Nat) (useCache : Bool) :
    (n ≠ 0 →
      (SLA.extractDeliveryData st (some n) useCache).cacheWritten = false ∧
      (SLA.extractDeliveryData st (some n) useCache).cacheAfter = st.cache) ∧
    ((SLA.extractDeliveryData st (some n) useCache).cacheRead
        = (useCache && st.cache.isSome)) ∧
    (useCache = false ∨ st.cache = none →
      (SLA.extractDeliveryData st (some n) useCache).result
        = SLA.computeVolumeRows
            ((SLA.takeLimit (some n) st.warehouse).map SLA.adjustRecord)) := by
  cases useCache <;> cases hc : st.cache <;>
    refine ⟨fun hn => ⟨?_, ?_⟩, ?_, fun ho => ?_⟩ <;>
    by_cases hn0 : n = 0 <;>
    simp_all [SLA.extractDeliveryData, SLA.limitTruthy, SLA.takeLimit]

/-- Witness for C7: with no cache file, caching on and limit `1`, the
theorem yields that nothing is written, the cache stays absent, and the
result is the fresh (empty-warehouse) extract. -/
theorem C7_witness :
    ((SLA.extractDeliveryData ⟨none, []⟩ (some 1) true).cacheWritten = false ∧
      (SLA.extractDeliveryData ⟨none, []⟩ (some 1) true).cacheAfter = none) ∧
    (SLA.extractDeliveryData ⟨none, []⟩ (some 1) true).result
      = SLA.computeVolumeRows
          ((SLA.takeLimit (some 1) (SLA.ExtractState.mk none []).warehouse).map
            SLA.adjustRecord) :=
  ⟨(C7_theorem ⟨none, []⟩ 1 true).1 (by decide),
   (C7_theorem ⟨none, []⟩ 1 true).2.2 (Or.inr rfl)⟩

namespace SLA

/-! ## Run-level status summaries (`dagster_pipeline.py`). -/

/-- `dagster_pipeline.py` (lines 3655-3705): tally of
`(successful_functions, failed_functions)` from the raw per-stage status
strings: `success`/`completed` and `warning` count as successful, `failed`
as failed, anything else as neither. -/
def normalizeTally (statuses : List String) : Nat × Nat :=
  statuses.foldl (fun acc s =>
    if s = "success" ∨ s = "completed" then (acc.1 + 1, acc.2)
    else if s = "failed" then (acc.1, acc.2 + 1)
    else if s = "warning" then (acc.1 + 1, acc.2)
    else acc) (0, 0)

/-- `dagster_pipeline.py` (lines 3716-3722): the function-status summary's
overall pipeline status, an ordered chain: `SUCCESS` if no failures, else
`PARTIAL_SUCCESS` if anything succeeded, else `FAILURE`. -/
def pipelineStatusOfTallies (succ failed : Nat) : String :=
  if failed = 0 then "SUCCESS"
  else if 0 < succ then "PARTIAL_SUCCESS"
  else "FAILURE"

/-- The overall run status computed from the raw per-stage statuses. -/
def functionRunStatus (statuses : List String) : String :=
  pipelineStatusOfTallies (normalizeTally statuses).1 (normalizeTally statuses).2

/-- `dagster_pipeline.py` (lines 3946-3954): the independent
table-completion summary's overall status, a **four**-way ordered chain:
`SUCCESS` if all expected tables exist, else `PARTIAL_SUCCESS` if at least
75% exist (`existing_tables >= total_tables * 0.75`; `0.75` is exactly
representable, so the float test equals `3 * total ≤ 4 * existing`), else
`PARTIAL_FAILURE` if any exist, else `FAILURE`. -/
def tableCompletionStatus (existing total : Nat) : String :=
  if existing = total then "SUCCESS"
  else if 3 * total ≤ 4 * existing then "PARTIAL_SUCCESS"
  else if 0 < existing then "PARTIAL_FAILURE"
  else "FAILURE"

end SLA

/-- **C9, counterexample.** The table-completion summary cited by the claim
does not follow the claimed three-way scheme: with 1 of 4 expected tables
present — at least one stage succeeded and at least one failed — its status
is `PARTIAL_FAILURE`, not `PARTIAL_SUCCESS`.  Moreover, in the
function-status summary a run whose only stage has an unrecognised status
(nothing succeeded, nothing failed) is reported `SUCCESS`, not
`FAILURE`. -/
theorem C9_counterexample :
    SLA.tableCompletionStatus 1 4 = "PARTIAL_FAILURE" ∧
    "PARTIAL_FAILURE" ≠ "PARTIAL_SUCCESS" ∧
    SLA.functionRunStatus ["running"] = "SUCCESS" := by decide

/-- **C9** (amended). The function-status summary follows the three-way
scheme as an ordered chain of the per-stage tallies: `SUCCESS` when no
stage failed (even if none succeeded), `PARTIAL_SUCCESS` when at least one
failed and at least one succeeded, `FAILURE` when at least one failed and
none succeeded.  The independent table-completion summary instead uses a
four-way scheme: `SUCCESS` iff all expected tables exist, else
`PARTIAL_SUCCESS` iff at least 75% exist, else `PARTIAL_FAILURE` iff at
least one exists, else `FAILURE`. -/
theorem C9_theorem (sts : List String) (existing total : Nat) :
    ((SLA.normalizeTally sts).2 = 0 →
      SLA.functionRunStatus sts = "SUCCESS") ∧
    (0 < (SLA.normalizeTally sts).2 → 0 < (SLA.normalizeTally sts).1 →
      SLA.functionRunStatus sts = "PARTIAL_SUCCESS") ∧
    (0 < (SLA.normalizeTally sts).2 → (SLA.normalizeTally sts).1 = 0 →
      SLA.functionRunStatus sts = "FAILURE") ∧
    (existing = total → SLA.tableCompletionStatus existing total = "SUCCESS") ∧
    (existing ≠ total → 3 * total ≤ 4 * existing →
      SLA.tableCompletionStatus existing total = "PARTIAL_SUCCESS") ∧
    (existing ≠ total → 4 * existing < 3 * total → 0 < existing →
      SLA.tableCompletionStatus existing total = "PARTIAL_FAILURE") ∧
    (existing = 0 → total ≠ 0 →
      SLA.tableCompletionStatus existing total = "FAILURE") := by
  refine ⟨fun h => ?_, fun h1 h2 => ?_, fun h1 h2 => ?_, fun h => ?_,
    fun h1 h2 => ?_, fun h1 h2 h3 => ?_, fun h1 h2 => ?_⟩ <;>
  · simp only [SLA.functionRunStatus, SLA.pipelineStatusOfTallies,
      SLA.tableCompletionStatus]
    split_ifs <;> simp_all <;> omega

/-- A run with one successful and one failed stage. -/
def runMixed : List String := ["success", "failed"]

/-- A run whose single stage failed. -/
def runFailed : List String := ["failed"]

/-- A run whose single stage succeeded. -/
def runOk : List String := ["success"]

/-- Witness for C9: the theorem instantiated across runs realising each of
the seven status outcomes. -/
theorem C9_witness :
    SLA.functionRunStatus runMixed = "PARTIAL_SUCCESS" ∧
    SLA.functionRunStatus runFailed = "FAILURE" ∧
    SLA.functionRunStatus runOk = "SUCCESS" ∧
    SLA.tableCompletionStatus 4 4 = "SUCCESS" ∧
    SLA.tableCompletionStatus 3 4 = "PARTIAL_SUCCESS" ∧
    SLA.tableCompletionStatus 1 4 = "PARTIAL_FAILURE" ∧
    SLA.tableCompletionStatus 0 4 = "FAILURE" :=
  ⟨(C9_theorem runMixed 0 0).2.1 (by decide) (by decide),
   (C9_theorem runFailed 0 0).2.2.1 (by decide) (by decide),
   (C9_theorem runOk 0 0).1 (by decide),
   (C9_theorem [] 4 4).2.2.2.1 rfl,
   (C9_theorem [] 3 4).2.2.2.2.1 (by decide) (by decide),
   (C9_theorem [] 1 4).2.2.2.2.2.1 (by decide) (by decide) (by decide),
   (C9_theorem [] 0 4).2.2.2.2.2.2 rfl (by decide)⟩
